import Mathlib

/-!
# Verification of the Streamlit analytics-dashboard data layer

A shallow embedding of the repository's data-loading and fallback-rendering
layer (`app.py`, `database_connections/redshift_connection.py`,
`database_connections/snowflake_connection.py`), together with theorems
settling the frozen claims about it.

Conventions of the embedding:

* A pandas `DataFrame` is a `Table`: a list of column names plus a list of
  rows, each row a list of `Value` cells aligned with the columns.
* Timestamps are abstracted to `Nat` offsets; calendar arithmetic
  (`pd.date_range`, `DateOffset`) is modelled as arithmetic on those offsets.
* `np.random.*` draws are modelled by an oracle `Rand` supplying one value
  per (row index, field name); theorems about synthetic data hold for every
  oracle, i.e. regardless of the random values drawn.
* Python `None` is `Option.none`; a pandas `NaN` cell is `Value.nan`;
  float division by zero follows pandas semantics (`inf` / `-inf` / `NaN`,
  never an exception).
* Operations that can raise in Python (`iloc[-1]` on an empty frame, column
  lookup on a missing column) return `Except String`; a `.ok` result means
  the Python code completes without raising.
-/

namespace StreamlitRepo

/-- A cell of a pandas `DataFrame`: string, integer, rational (finite float),
boolean, abstracted timestamp, or one of the special float values `NaN`,
`inf`, `-inf` that pandas produces (e.g. on division by zero, or for a
failed `.map` lookup). -/
inductive Value where
  | str : String → Value
  | int : Int → Value
  | rat : Rat → Value
  | bool : Bool → Value
  | date : Nat → Value
  | nan : Value
  | inf : Value
  | negInf : Value
deriving DecidableEq, Repr

/-- A pandas `DataFrame`: column names plus rows of cells, each row aligned
positionally with `cols`. -/
structure Table where
  cols : List String
  rows : List (List Value)
deriving DecidableEq, Repr

/-- `pd.DataFrame()` — the empty frame returned on a zero-row query result. -/
def emptyTable : Table := ⟨[], []⟩

/-- pandas `df.empty`: true when either axis has length 0. -/
def Table.isEmptyDf (t : Table) : Bool := t.rows.isEmpty || t.cols.isEmpty

/-- pandas `df.head(n)`: the first `n` rows. -/
def Table.head (t : Table) (n : Nat) : Table := ⟨t.cols, t.rows.take n⟩

/-- Well-formedness: every row has exactly one cell per column. -/
def Table.wf (t : Table) : Prop := ∀ r ∈ t.rows, r.length = t.cols.length

/-- Position of a column label in a table's column list. -/
def Table.colIdx (t : Table) (c : String) : Option Nat :=
  t.cols.findIdx? (fun x => x = c)

/-- Cell of row `r` (a row of table `t`) at column `c`, if the column exists
and the row is long enough. -/
def Table.cell (t : Table) (r : List Value) (c : String) : Option Value :=
  (t.colIdx c).bind fun i => r.get? i

/-- Cell access as Python performs it (`row['c']`): a missing column is a
`KeyError`, modelled as `Except.error`. -/
def Table.cellE (t : Table) (r : List Value) (c : String) : Except String Value :=
  match t.cell r c with
  | some v => .ok v
  | none => .error "KeyError"

/-- Integer cell access: pandas arithmetic on a count column; a non-integer
cell (or a missing one) is an error. -/
def Table.intCellE (t : Table) (r : List Value) (c : String) : Except String Int :=
  match t.cell r c with
  | some (.int n) => .ok n
  | some _ => .error "TypeError"
  | none => .error "KeyError"

/-- The column `c` holds an integer in every row of `t`. -/
def Table.intCol (t : Table) (c : String) : Bool :=
  t.rows.all fun r =>
    match t.cell r c with
    | some (.int _) => true
    | _ => false

/-! ## ASCII lower-casing (pandas `.str.lower()` on column labels)

Column labels in this repository are ASCII identifiers, so lower-casing is
modelled on the ASCII range. -/

/-- The character code shifted from uppercase to lowercase stays a valid
scalar value. -/
theorem lower_shift_toNat (c : Char) (h : 65 ≤ c.toNat ∧ c.toNat ≤ 90) :
    (c.val + 32).toNat = c.toNat + 32 := by
  have hc : c.toNat = c.val.toNat := rfl
  rw [UInt32.toNat_add]
  have h32 : (32 : UInt32).toNat = 32 := rfl
  rw [h32, ← hc]
  have hsz : UInt32.size = 4294967296 := rfl
  rw [hsz]
  omega

theorem lower_shift_valid (c : Char) (h : 65 ≤ c.toNat ∧ c.toNat ≤ 90) :
    (c.val + 32).isValidChar := by
  have := lower_shift_toNat c h
  constructor
  omega

/-- Lower-case one ASCII character. -/
def lowerChar (c : Char) : Char :=
  if h : 65 ≤ c.toNat ∧ c.toNat ≤ 90 then ⟨c.val + 32, lower_shift_valid c h⟩ else c

theorem toNat_lowerChar (c : Char) :
    (lowerChar c).toNat =
      if 65 ≤ c.toNat ∧ c.toNat ≤ 90 then c.toNat + 32 else c.toNat := by
  unfold lowerChar
  split
  · rename_i h
    exact lower_shift_toNat c h
  · rfl

/-- Lower-case a string (pandas `.str.lower()` on an ASCII label). -/
def lowerStr (s : String) : String := ⟨s.data.map lowerChar⟩

/-- A string with no ASCII uppercase letter. -/
def isLowerStr (s : String) : Bool :=
  s.data.all fun c => !(65 ≤ c.toNat && c.toNat ≤ 90)

theorem isLowerStr_lowerChar (c : Char) :
    (!(65 ≤ (lowerChar c).toNat && (lowerChar c).toNat ≤ 90)) = true := by
  rw [toNat_lowerChar]
  split
  · rename_i h
    simp only [Bool.not_eq_true', Bool.and_eq_false_iff]
    right
    simp only [decide_eq_false_iff_not]
    omega
  · rename_i h
    simp only [Bool.not_eq_true', Bool.and_eq_false_iff]
    rcases Decidable.em (65 ≤ c.toNat) with h1 | h1
    · right
      simp only [decide_eq_false_iff_not]
      intro h2
      exact h ⟨h1, h2⟩
    · left
      simp only [decide_eq_false_iff_not]
      exact h1

theorem isLowerStr_lowerStr (s : String) : isLowerStr (lowerStr s) = true := by
  unfold isLowerStr lowerStr
  show (s.data.map lowerChar).all _ = true
  rw [List.all_map]
  apply List.all_eq_true.mpr
  intro c _
  exact isLowerStr_lowerChar c

/-- `df.columns = df.columns.str.lower()`: lower-case every column label,
leaving the rows untouched. -/
def lowerTable (t : Table) : Table := ⟨t.cols.map lowerStr, t.rows⟩

theorem lowerTable_rows (t : Table) : (lowerTable t).rows = t.rows := rfl

theorem lowerTable_all_lower (t : Table) :
    (lowerTable t).cols.all isLowerStr = true := by
  unfold lowerTable
  show (t.cols.map lowerStr).all _ = true
  rw [List.all_map]
  apply List.all_eq_true.mpr
  intro s _
  exact isLowerStr_lowerStr s

/-! ## Query executors

`execute_redshift_query` / `execute_snowflake_query` wrap one
`conn.query(...)` call in `try/except`.  The interaction with the external
warehouse is abstracted as a `QueryOutcome`: either the connection/query
raised an exception (with a message), or `conn.query` returned a value —
`none` (Python `None`) or a `Table`. -/

/-- Outcome of the underlying `st.connection(...).query(...)` call. -/
inductive QueryOutcome where
  | raises : String → QueryOutcome
  | result : Option Table → QueryOutcome
deriving DecidableEq, Repr

/-- `execute_redshift_query` (redshift_connection.py, lines 20-36): on an
exception return `None`; on a returned frame, pass it through when it is
non-empty, otherwise return a fresh `pd.DataFrame()` for consistency. -/
def execute_redshift_query (o : QueryOutcome) : Option Table :=
  match o with
  | .raises _ => none
  | .result df =>
      match df with
      | some df => if !df.isEmptyDf then some df else some emptyTable
      | none => some emptyTable

/-- `execute_snowflake_query` (snowflake_connection.py, lines 20-36):
structurally identical to the Redshift executor. -/
def execute_snowflake_query (o : QueryOutcome) : Option Table :=
  match o with
  | .raises _ => none
  | .result df =>
      match df with
      | some df => if !df.isEmptyDf then some df else some emptyTable
      | none => some emptyTable

/-! ## Random oracle

`np.random.randint`, `np.random.uniform` and `np.random.choice` draws are
modelled by an oracle keyed by (row index, field name).  `now` abstracts
`datetime.now()` / `pd.Timestamp.now()` as an offset; `year`/`month` are its
calendar fields.  Shape theorems about the synthetic data quantify over the
whole oracle, i.e. hold regardless of the values drawn. -/

structure Rand where
  ri : Nat → String → Nat
  ru : Nat → String → Rat
  rc : Nat → String → Nat
  now : Nat
  year : Int
  month : Int

/-- `np.random.randint(lo, hi)` — a draw in `[lo, hi)`. -/
def randNat (g : Rand) (i : Nat) (f : String) (lo hi : Nat) : Nat :=
  lo + g.ri i f % (hi - lo)

/-- `np.random.randint(lo, hi)` as an integer cell. -/
def randintV (g : Rand) (i : Nat) (f : String) (lo hi : Nat) : Value :=
  .int (Int.ofNat (randNat g i f lo hi))

/-- `np.random.uniform(lo, hi)` as a float cell (the drawn value is the
oracle's; the bounds are recorded from the source but not constrained). -/
def uniformV (g : Rand) (i : Nat) (f : String) (lo hi : Rat) : Value :=
  .rat (lo + (hi - lo) * 0 + g.ru i f)

/-- `np.random.choice(opts)` — pick one element of the literal list. -/
def choiceV (g : Rand) (i : Nat) (f : String) (opts : List String) : Value :=
  .str (opts.getD (g.rc i f % opts.length) "")

/-- Zero-padded formatted id, e.g. Python `f'P{i:05d}'`. -/
def padNum (w n : Nat) : String :=
  let s := toString n
  String.mk (List.replicate (w - s.length) '0') ++ s

/-- `pd.date_range(end=now, periods=n)` — `n` consecutive date offsets
ending at `now`. -/
def date_range_end (now n : Nat) : List Nat :=
  (List.range n).map fun i => now - (n - 1 - i)

/-! ## Pipeline A (AWS + OpenFDA page): synthetic fallback tables

Translated from the mock-data block of `load_fda_dashboard_data`
(app.py, lines 266-338). -/

/-- Mock volume data (app.py 268-279): 12 monthly rows. -/
def mock_volume_df (g : Rand) : Table :=
  { cols := ["total_reports", "serious_reports", "fatal_reports",
             "countries_affected", "report_month"]
  , rows := (List.range 12).map fun i =>
      [ randintV g i "total_reports" 1000 5000
      , randintV g i "serious_reports" 100 500
      , randintV g i "fatal_reports" 5 50
      , randintV g i "countries_affected" 10 30
      , .date ((date_range_end g.now 12).getD i 0) ] }

/-- The ten literal drug names of the mock data (app.py 282-283). -/
def mockDrugs : List String :=
  ["ASPIRIN", "IBUPROFEN", "ACETAMINOPHEN", "LISINOPRIL", "METFORMIN",
   "ATORVASTATIN", "AMLODIPINE", "OMEPRAZOLE", "SIMVASTATIN", "PANTOPRAZOLE"]

/-- Mock top-drugs data (app.py 284-296): one row per literal drug name. -/
def mock_top_drugs_df (g : Rand) : Table :=
  { cols := ["medicinalproduct", "generic_name", "report_count",
             "recovered_count", "fatal_count", "avg_age", "male_count",
             "female_count"]
  , rows := mockDrugs.enum.map fun (i, d) =>
      [ .str d
      , .str (lowerStr d)
      , randintV g i "report_count" 100 1000
      , randintV g i "recovered_count" 50 800
      , randintV g i "fatal_count" 0 20
      , randintV g i "avg_age" 30 80
      , randintV g i "male_count" 40 200
      , randintV g i "female_count" 40 200 ] }

/-- The ten literal country codes of the mock data (app.py 299). -/
def mockCountries : List String :=
  ["US", "GB", "CA", "AU", "DE", "FR", "JP", "IT", "ES", "BR"]

/-- Mock global-distribution data (app.py 300-309): one row per country. -/
def mock_global_dist_df (g : Rand) : Table :=
  { cols := ["occurcountry", "report_count", "serious_reports",
             "fatal_reports", "unique_serious_reports"]
  , rows := mockCountries.enum.map fun (i, c) =>
      [ .str c
      , randintV g i "report_count" 100 2000
      , randintV g i "serious_reports" 10 200
      , randintV g i "fatal_reports" 0 20
      , randintV g i "unique_serious_reports" 10 150 ] }

/-- Mock trends data (app.py 311-322): 26 weekly rows ending now. -/
def mock_trends_df (g : Rand) : Table :=
  { cols := ["receivedate", "total_reports", "serious_reports",
             "fatal_reports", "hospitalization_reports"]
  , rows := (List.range 26).map fun i =>
      [ .date ((date_range_end g.now 26).getD i 0)
      , randintV g i "total_reports" 200 1000
      , randintV g i "serious_reports" 20 100
      , randintV g i "fatal_reports" 0 10
      , randintV g i "hospitalization_reports" 10 80 ] }

/-- Mock suspect-drugs data (app.py 324-336): one row per drug in
`drugs[:8]`. -/
def mock_suspect_drugs_df (g : Rand) : Table :=
  { cols := ["medicinalproduct", "generic_name", "drugcharacterization",
             "report_count", "recovered_count", "fatal_count",
             "unique_reports"]
  , rows := (mockDrugs.take 8).enum.map fun (i, d) =>
      [ .str d
      , .str (lowerStr d)
      , .str "1"
      , randintV g i "report_count" 80 800
      , randintV g i "recovered_count" 40 600
      , randintV g i "fatal_count" 0 15
      , randintV g i "unique_reports" 50 400 ] }

/-- The 5-table bundle of the AWS + OpenFDA page. -/
structure FdaBundle where
  volume_df : Option Table
  top_drugs_df : Option Table
  global_dist_df : Option Table
  trends_df : Option Table
  suspect_drugs_df : Option Table
deriving DecidableEq, Repr

/-- `load_fda_dashboard_data` (app.py 254-338), as a function of the five
loader results.  The source guard is
`if volume_df is not None and top_drugs_df is not None`: only the first two
loaders are checked before returning the loader results as-is; otherwise
the fully synthetic bundle is generated.  (The `st.warning` side effect on
the fallback path is not modelled.) -/
def load_fda_dashboard_data
    (volume_df top_drugs_df global_dist_df trends_df suspect_drugs_df : Option Table)
    (g : Rand) : FdaBundle :=
  match volume_df, top_drugs_df with
  | some v, some t =>
      ⟨some v, some t, global_dist_df, trends_df, suspect_drugs_df⟩
  | _, _ =>
      ⟨some (mock_volume_df g), some (mock_top_drugs_df g),
       some (mock_global_dist_df g), some (mock_trends_df g),
       some (mock_suspect_drugs_df g)⟩

/-! ## Pipeline B (Snowflake + Synthea page): synthetic fallback tables

Translated from the mock-data block of `load_healthcare_dashboard_data`
(app.py, lines 615-834).  The literal option lists of the `np.random.choice`
calls are named once and shared, exactly as they recur in the source. -/

def mockStates : List String := ["MA", "NY", "CA", "TX", "FL"]

def mockCountyNames : List String :=
  ["Suffolk", "Middlesex", "Essex", "Norfolk", "Bristol"]

def mockCityNames : List String :=
  ["Boston", "NYC", "Los Angeles", "Houston", "Miami"]

def mockDayNames : List String :=
  ["Monday", "Tuesday", "Wednesday", "Thursday", "Friday", "Saturday", "Sunday"]

def mockEncounterClasses : List String :=
  ["ambulatory", "emergency", "inpatient", "wellness"]

def mockCostCategories : List String := ["low", "medium", "high"]

def mockAgeGroups : List String := ["18-30", "31-45", "46-60", "61-75", "75+"]

def mockIncomeLevels : List String :=
  ["Very Low", "Low", "Medium", "High", "Very High"]

def mockCoverageTiers : List String := ["Bronze", "Silver", "Gold", "Platinum"]

def mockClaimStatuses : List String := ["Pending", "Approved", "Denied", "In Review"]

def mockClaimTypes : List String := ["Medical", "Dental", "Vision", "Pharmacy"]

def mockRiskLevels : List String := ["Low Risk", "Medium Risk", "High Risk"]

def mockDiagCodes : List String := ["R10", "R20", "R30", "R40"]

def mockBurdenCategories : List String :=
  ["Low Burden", "Medium Burden", "High Burden"]

/-- `(pd.Timestamp.now().month - 1) // 3 + 1` — the current quarter. -/
def mockQuarter (g : Rand) : Int := (g.month - 1).fdiv 3 + 1

/-- Mock executive-dashboard data (app.py 617-636): 24 monthly rows. -/
def mock_exec_df (g : Rand) : Table :=
  { cols := ["month_date", "year", "month", "encounter_count",
             "unique_patients", "total_revenue", "avg_cost_per_encounter",
             "total_payer_coverage", "total_patient_payment",
             "avg_coverage_percentage", "encounter_class", "cost_category",
             "encounter_day_name", "state"]
  , rows := (List.range 24).map fun i =>
      [ .date (g.now - i)
      , .int (g.year - Int.ofNat (i / 12))
      , .int (g.month - Int.ofNat (i % 12))
      , randintV g i "encounter_count" 1000 5000
      , randintV g i "unique_patients" 800 4000
      , uniformV g i "total_revenue" 500000 2000000
      , uniformV g i "avg_cost_per_encounter" 200 800
      , uniformV g i "total_payer_coverage" 400000 1500000
      , uniformV g i "total_patient_payment" 100000 500000
      , uniformV g i "avg_coverage_percentage" 70 95
      , choiceV g i "encounter_class" mockEncounterClasses
      , choiceV g i "cost_category" mockCostCategories
      , choiceV g i "encounter_day_name" mockDayNames
      , choiceV g i "state" mockStates ] }

/-- Mock patient-demographics data (app.py 638-666): 1000 rows. -/
def mock_patient_df (g : Rand) : Table :=
  { cols := ["patient_id", "full_name", "age", "age_group", "gender",
             "gender_full", "race", "ethnicity", "marital_status", "state",
             "county", "city", "zip", "income", "income_level",
             "healthcare_expenses", "healthcare_coverage", "coverage_tier",
             "is_alive", "total_encounters", "total_medical_costs",
             "avg_cost_per_encounter", "total_out_of_pocket"]
  , rows := (List.range 1000).map fun i =>
      [ .str ("P" ++ padNum 5 i)
      , .str ("Patient " ++ toString i)
      , randintV g i "age" 18 90
      , choiceV g i "age_group" mockAgeGroups
      , choiceV g i "gender" ["M", "F"]
      , choiceV g i "gender_full" ["Male", "Female"]
      , choiceV g i "race" ["White", "Black", "Asian", "Hispanic", "Other"]
      , choiceV g i "ethnicity" ["Non-Hispanic", "Hispanic"]
      , choiceV g i "marital_status" ["Single", "Married", "Divorced", "Widowed"]
      , choiceV g i "state" mockStates
      , choiceV g i "county" mockCountyNames
      , choiceV g i "city" mockCityNames
      , randintV g i "zip" 1000 9999
      , uniformV g i "income" 20000 200000
      , choiceV g i "income_level" mockIncomeLevels
      , uniformV g i "healthcare_expenses" 1000 50000
      , uniformV g i "healthcare_coverage" (1/2) 1
      , choiceV g i "coverage_tier" mockCoverageTiers
      , .bool true
      , randintV g i "total_encounters" 1 50
      , uniformV g i "total_medical_costs" 1000 100000
      , uniformV g i "avg_cost_per_encounter" 100 1000
      , uniformV g i "total_out_of_pocket" 100 10000 ] }

/-- Mock encounter data (app.py 668-703): 5000 rows. -/
def mock_encounter_df (g : Rand) : Table :=
  { cols := ["encounter_id", "encounter_date", "encounter_year",
             "encounter_month", "encounter_quarter", "encounter_day_of_week",
             "encounter_day_name", "encounter_class", "encounter_code",
             "encounter_description", "reason_code", "reason_description",
             "cost_category", "duration_minutes", "duration_hours",
             "base_encounter_cost", "total_claim_cost", "payer_coverage",
             "patient_out_of_pocket", "payer_coverage_percentage",
             "patient_id", "provider_id", "payer_id", "organization_id",
             "age", "age_group", "gender_full", "state", "income_level",
             "coverage_tier"]
  , rows := (List.range 5000).map fun i =>
      [ .str ("E" ++ padNum 5 i)
      , .date (g.now - randNat g i "encounter_date" 0 730)
      , .int g.year
      , .int g.month
      , .int (mockQuarter g)
      , randintV g i "encounter_day_of_week" 0 7
      , choiceV g i "encounter_day_name" mockDayNames
      , choiceV g i "encounter_class" mockEncounterClasses
      , choiceV g i "encounter_code" ["Z00", "Z01", "Z02", "Z03"]
      , choiceV g i "encounter_description" ["Routine", "Emergency", "Surgical", "Preventive"]
      , choiceV g i "reason_code" mockDiagCodes
      , choiceV g i "reason_description" ["Abdominal Pain", "Skin Rash", "Fever", "Chest Pain"]
      , choiceV g i "cost_category" mockCostCategories
      , randintV g i "duration_minutes" 15 480
      , uniformV g i "duration_hours" (1/4) 8
      , uniformV g i "base_encounter_cost" 100 5000
      , uniformV g i "total_claim_cost" 200 10000
      , uniformV g i "payer_coverage" 100 8000
      , uniformV g i "patient_out_of_pocket" 50 2000
      , uniformV g i "payer_coverage_percentage" 70 95
      , .str ("P" ++ padNum 5 (randNat g i "patient_id" 0 1000))
      , .str ("PR" ++ padNum 3 (randNat g i "provider_id" 0 100))
      , .str ("PY" ++ padNum 3 (randNat g i "payer_id" 0 50))
      , .str ("ORG" ++ padNum 2 (randNat g i "organization_id" 0 20))
      , randintV g i "age" 18 90
      , choiceV g i "age_group" mockAgeGroups
      , choiceV g i "gender_full" ["Male", "Female"]
      , choiceV g i "state" mockStates
      , choiceV g i "income_level" mockIncomeLevels
      , choiceV g i "coverage_tier" mockCoverageTiers ] }

/-- Mock claims data (app.py 705-749): 2000 rows. -/
def mock_claims_df (g : Rand) : Table :=
  { cols := ["claim_id", "patient_id", "provider_id", "service_date",
             "service_year", "service_month", "service_quarter",
             "current_illness_date", "primary_insurance_id",
             "secondary_insurance_id", "insurance_coverage_type",
             "primary_status", "secondary_status", "patient_status",
             "primary_outstanding", "secondary_outstanding",
             "patient_outstanding", "total_outstanding",
             "outstanding_risk_level", "primary_last_billed_date",
             "secondary_last_billed_date", "patient_last_billed_date",
             "primary_claim_type", "secondary_claim_type", "age",
             "age_group", "gender_full", "state", "income_level",
             "coverage_tier", "diagnosis1", "diagnosis2", "diagnosis3",
             "diagnosis4", "diagnosis5", "diagnosis6", "diagnosis7",
             "diagnosis8", "diagnosis_count"]
  , rows := (List.range 2000).map fun i =>
      [ .str ("C" ++ padNum 5 i)
      , .str ("P" ++ padNum 5 (randNat g i "patient_id" 0 1000))
      , .str ("PR" ++ padNum 3 (randNat g i "provider_id" 0 100))
      , .date (g.now - randNat g i "service_date" 0 730)
      , .int g.year
      , .int g.month
      , .int (mockQuarter g)
      , .date (g.now - randNat g i "current_illness_date" 1 30)
      , .str ("INS" ++ padNum 3 (randNat g i "primary_insurance_id" 0 50))
      , .str ("INS" ++ padNum 3 (randNat g i "secondary_insurance_id" 0 50))
      , choiceV g i "insurance_coverage_type" ["PPO", "HMO", "POS", "EPO"]
      , choiceV g i "primary_status" mockClaimStatuses
      , choiceV g i "secondary_status" mockClaimStatuses
      , choiceV g i "patient_status" mockClaimStatuses
      , uniformV g i "primary_outstanding" 0 5000
      , uniformV g i "secondary_outstanding" 0 3000
      , uniformV g i "patient_outstanding" 0 2000
      , uniformV g i "total_outstanding" 0 10000
      , choiceV g i "outstanding_risk_level" mockRiskLevels
      , .date (g.now - randNat g i "primary_last_billed_date" 1 90)
      , .date (g.now - randNat g i "secondary_last_billed_date" 1 90)
      , .date (g.now - randNat g i "patient_last_billed_date" 1 90)
      , choiceV g i "primary_claim_type" mockClaimTypes
      , choiceV g i "secondary_claim_type" mockClaimTypes
      , randintV g i "age" 18 90
      , choiceV g i "age_group" mockAgeGroups
      , choiceV g i "gender_full" ["Male", "Female"]
      , choiceV g i "state" mockStates
      , choiceV g i "income_level" mockIncomeLevels
      , choiceV g i "coverage_tier" mockCoverageTiers
      , choiceV g i "diagnosis1" mockDiagCodes
      , choiceV g i "diagnosis2" mockDiagCodes
      , choiceV g i "diagnosis3" mockDiagCodes
      , choiceV g i "diagnosis4" mockDiagCodes
      , choiceV g i "diagnosis5" mockDiagCodes
      , choiceV g i "diagnosis6" mockDiagCodes
      , choiceV g i "diagnosis7" mockDiagCodes
      , choiceV g i "diagnosis8" mockDiagCodes
      , randintV g i "diagnosis_count" 1 8 ] }

/-- Mock financial-insights data (app.py 751-797): 1000 rows.  The source
dict literal repeats the keys `monthly_payer_coverage` and
`monthly_patient_payment`; a Python dict keeps the key at its first
position with the last value, so each appears once here. -/
def mock_financial_df (g : Rand) : Table :=
  { cols := ["encounter_date", "encounter_year", "encounter_month",
             "encounter_quarter", "encounter_class", "cost_category",
             "patient_id", "provider_id", "payer_id",
             "base_encounter_cost", "total_claim_cost", "payer_coverage",
             "patient_out_of_pocket", "payer_coverage_percentage", "state",
             "county", "age_group", "gender_full", "income_level", "income",
             "healthcare_expenses", "healthcare_coverage",
             "total_claim_outstanding", "total_claims",
             "monthly_total_revenue", "monthly_payer_coverage",
             "monthly_patient_payment", "state_total_revenue",
             "state_payer_coverage", "state_patient_payment",
             "class_total_revenue", "payer_total_revenue",
             "avg_coverage_by_payer", "avg_coverage_by_income",
             "avg_coverage_by_age", "avg_cost_by_class",
             "avg_cost_by_provider", "patient_burden_percentage",
             "financial_burden_category"]
  , rows := (List.range 1000).map fun i =>
      [ .date (g.now - randNat g i "encounter_date" 0 730)
      , .int g.year
      , .int g.month
      , .int (mockQuarter g)
      , choiceV g i "encounter_class" mockEncounterClasses
      , choiceV g i "cost_category" mockCostCategories
      , .str ("P" ++ padNum 5 (randNat g i "patient_id" 0 1000))
      , .str ("PR" ++ padNum 3 (randNat g i "provider_id" 0 100))
      , .str ("PY" ++ padNum 3 (randNat g i "payer_id" 0 50))
      , uniformV g i "base_encounter_cost" 100 5000
      , uniformV g i "total_claim_cost" 200 10000
      , uniformV g i "payer_coverage" 100 8000
      , uniformV g i "patient_out_of_pocket" 50 2000
      , uniformV g i "payer_coverage_percentage" 70 95
      , choiceV g i "state" mockStates
      , choiceV g i "county" mockCountyNames
      , choiceV g i "age_group" mockAgeGroups
      , choiceV g i "gender_full" ["Male", "Female"]
      , choiceV g i "income_level" mockIncomeLevels
      , uniformV g i "income" 20000 200000
      , uniformV g i "healthcare_expenses" 1000 50000
      , uniformV g i "healthcare_coverage" (1/2) 1
      , uniformV g i "total_claim_outstanding" 0 10000
      , randintV g i "total_claims" 1 20
      , uniformV g i "monthly_total_revenue" 500000 2000000
      , uniformV g i "monthly_payer_coverage" 400000 1500000
      , uniformV g i "monthly_patient_payment" 100000 500000
      , uniformV g i "state_total_revenue" 1000000 5000000
      , uniformV g i "state_payer_coverage" 800000 4000000
      , uniformV g i "state_patient_payment" 200000 1000000
      , uniformV g i "class_total_revenue" 500000 2000000
      , uniformV g i "payer_total_revenue" 200000 1000000
      , uniformV g i "avg_coverage_by_payer" 70 95
      , uniformV g i "avg_coverage_by_income" 70 95
      , uniformV g i "avg_coverage_by_age" 70 95
      , uniformV g i "avg_cost_by_class" 200 1000
      , uniformV g i "avg_cost_by_provider" 200 1000
      , uniformV g i "patient_burden_percentage" 1 20
      , choiceV g i "financial_burden_category" mockBurdenCategories ] }

/-- The state/county/city triples of the geographic mock's nested loops
(app.py 800-804), in loop order. -/
def mockGeoTriples : List (String × String × String) :=
  mockStates.flatMap fun s =>
    mockCountyNames.flatMap fun c =>
      mockCityNames.map fun ci => (s, c, ci)

/-- Mock geographic-analysis data (app.py 799-832): one row per
state/county/city triple. -/
def mock_geo_df (g : Rand) : Table :=
  { cols := ["state", "county", "city", "patient_count", "avg_age",
             "avg_income", "avg_coverage_rate", "total_expenses",
             "avg_expenses_per_patient", "encounter_count",
             "total_medical_costs", "avg_cost_per_encounter",
             "total_insurance_paid", "total_patient_paid",
             "avg_coverage_percentage", "unique_encounter_patients",
             "claim_count", "total_outstanding", "avg_outstanding_per_claim",
             "unique_claim_patients", "encounters_per_patient",
             "medical_cost_per_patient", "outstanding_per_patient",
             "outstanding_percentage", "geographic_risk_level"]
  , rows := mockGeoTriples.enum.map fun (i, s, c, ci) =>
      [ .str s
      , .str c
      , .str ci
      , randintV g i "patient_count" 100 5000
      , uniformV g i "avg_age" 30 70
      , uniformV g i "avg_income" 30000 150000
      , uniformV g i "avg_coverage_rate" (7/10) (19/20)
      , uniformV g i "total_expenses" 100000 5000000
      , uniformV g i "avg_expenses_per_patient" 1000 10000
      , randintV g i "encounter_count" 500 25000
      , uniformV g i "total_medical_costs" 200000 10000000
      , uniformV g i "avg_cost_per_encounter" 200 1000
      , uniformV g i "total_insurance_paid" 150000 8000000
      , uniformV g i "total_patient_paid" 50000 2000000
      , uniformV g i "avg_coverage_percentage" 70 95
      , randintV g i "unique_encounter_patients" 400 4000
      , randintV g i "claim_count" 200 10000
      , uniformV g i "total_outstanding" 10000 500000
      , uniformV g i "avg_outstanding_per_claim" 50 500
      , randintV g i "unique_claim_patients" 150 3000
      , uniformV g i "encounters_per_patient" 1 10
      , uniformV g i "medical_cost_per_patient" 1000 20000
      , uniformV g i "outstanding_per_patient" 50 1000
      , uniformV g i "outstanding_percentage" 5 30
      , choiceV g i "geographic_risk_level" mockRiskLevels ] }

/-- The 6-table bundle of the Snowflake + Synthea page. -/
structure HealthBundle where
  exec_df : Option Table
  patient_df : Option Table
  encounter_df : Option Table
  claims_df : Option Table
  financial_df : Option Table
  geo_df : Option Table
deriving DecidableEq, Repr

/-- `load_healthcare_dashboard_data` (app.py 595-834), as a function of the
six loader results.  The source guard is
`if all(df is not None for df in [exec_df, patient_df, encounter_df,
claims_df, financial_df, geo_df])`: when every loader succeeded, every
table's column labels are lower-cased and the bundle is returned;
otherwise the fully synthetic bundle is generated. -/
def load_healthcare_dashboard_data
    (exec_df patient_df encounter_df claims_df financial_df geo_df : Option Table)
    (g : Rand) : HealthBundle :=
  match exec_df, patient_df, encounter_df, claims_df, financial_df, geo_df with
  | some e, some p, some en, some c, some f, some ge =>
      ⟨some (lowerTable e), some (lowerTable p), some (lowerTable en),
       some (lowerTable c), some (lowerTable f), some (lowerTable ge)⟩
  | _, _, _, _, _, _ =>
      ⟨some (mock_exec_df g), some (mock_patient_df g),
       some (mock_encounter_df g), some (mock_claims_df g),
       some (mock_financial_df g), some (mock_geo_df g)⟩

/-! ## Page-renderer logic (AWS + OpenFDA page) -/

/-- Result of the "Report Type Distribution" section: either the warning
message or the pie chart's (label, count) data. -/
inductive PieResult where
  | warning : String → PieResult
  | chart : List (String × Value) → PieResult
deriving DecidableEq, Repr

/-- `trends_df.iloc[-1]` — the last row; raises `IndexError` on an empty
frame. -/
def ilocLast (t : Table) : Except String (List Value) :=
  match t.rows.getLast? with
  | some r => .ok r
  | none => .error "IndexError"

/-- The "Latest Week Report Distribution" pie-chart section (app.py
481-498): `if not trends_df.empty`, read the last row's four report counts
into the pie data; otherwise emit the warning. -/
def renderPieSection (trends_df : Table) : Except String PieResult :=
  if !trends_df.isEmptyDf then do
    let latest_week ← ilocLast trends_df
    let total ← trends_df.cellE latest_week "total_reports"
    let serious ← trends_df.cellE latest_week "serious_reports"
    let fatal ← trends_df.cellE latest_week "fatal_reports"
    let hosp ← trends_df.cellE latest_week "hospitalization_reports"
    pure (.chart [("Total Reports", total), ("Serious Reports", serious),
                  ("Fatal Reports", fatal), ("Hospitalization Reports", hosp)])
  else
    pure (.warning "No trend data available for visualization")

/-- pandas element-wise float division scaled by 100 and rounded to one
decimal: `(recovered_count / report_count * 100).round(1)`.  Division by
zero yields `NaN` (0/0) or `±inf`, never an exception. -/
def recoveryRateCell (recovered report : Int) : Value :=
  if report = 0 then
    if recovered = 0 then .nan else if recovered > 0 then .inf else .negInf
  else
    .rat ((round ((recovered : Rat) / (report : Rat) * 100 * 10) : Int) / 10)

/-- Append the computed `recovery_rate` cell to each row of the
suspect-drugs frame. -/
def addRecoveryRows (t : Table) : List (List Value) → Except String (List (List Value))
  | [] => .ok []
  | r :: rs => do
    let recovered ← t.intCellE r "recovered_count"
    let report ← t.intCellE r "report_count"
    let rest ← addRecoveryRows t rs
    pure ((r ++ [recoveryRateCell recovered report]) :: rest)

/-- The "Suspect Drugs Recovery Rate" section (app.py 520-531):
`top_suspect = suspect_drugs_df.head(10).copy()`, add the
`recovery_rate` column, and feed the frame to the bar chart
(which reads the `medicinalproduct` and `recovery_rate` columns). -/
def renderRecoverySection (suspect_drugs_df : Table) : Except String Table := do
  let top_suspect := suspect_drugs_df.head 10
  let newRows ← addRecoveryRows top_suspect top_suspect.rows
  let charted : Table := ⟨top_suspect.cols ++ ["recovery_rate"], newRows⟩
  match charted.colIdx "medicinalproduct" with
  | some _ => pure charted
  | none => .error "KeyError"

/-- The static 2-letter-to-3-letter ISO lookup table (app.py 428-434). -/
def code_mapping : List (String × String) :=
  [("US", "USA"), ("GB", "GBR"), ("CA", "CAN"), ("AU", "AUS"), ("DE", "DEU"),
   ("FR", "FRA"), ("JP", "JPN"), ("IT", "ITA"), ("ES", "ESP"), ("BR", "BRA"),
   ("CN", "CHN"), ("IN", "IND"), ("MX", "MEX"), ("RU", "RUS"), ("ZA", "ZAF"),
   ("KR", "KOR"), ("NL", "NLD"), ("CH", "CHE"), ("SE", "SWE"), ("AR", "ARG")]

/-- pandas `Series.map(dict)`: the mapped value when the key is present,
`NaN` otherwise. -/
def mapLookup (m : List (String × String)) (k : String) : Value :=
  match m.find? (fun p => p.1 = k) with
  | some p => .str p.2
  | none => .nan

/-- The `iso_alpha` cell of one row:
`map_df['occurcountry'].map(code_mapping)` applied to that row (a non-string
cell is not a key of the dict, hence `NaN`). -/
def isoAlphaOf (g : Table) (r : List Value) : Value :=
  match g.cell r "occurcountry" with
  | some (.str s) => mapLookup code_mapping s
  | _ => .nan

/-- `map_df = global_dist_df.copy(); map_df['iso_alpha'] = ...` (app.py
435-436): the frame with the mapped column appended. -/
def map_df (global_dist_df : Table) : Table :=
  { cols := global_dist_df.cols ++ ["iso_alpha"]
  , rows := global_dist_df.rows.map fun r => r ++ [isoAlphaOf global_dist_df r] }

/-- `map_df.dropna(subset=['iso_alpha'])` (app.py 442): the choropleth's
dataset — rows whose `iso_alpha` cell is `NaN` are dropped. -/
def choropleth_df (global_dist_df : Table) : Table :=
  let m := map_df global_dist_df
  { cols := m.cols
  , rows := m.rows.filter fun r => decide (¬ m.cell r "iso_alpha" = some .nan) }

/-- The country codes shown by the tabular heatmap view (app.py 455):
`global_dist_df.head(15).set_index('occurcountry')` keeps the codes of the
first 15 rows as the displayed index. -/
def heatmap_codes (global_dist_df : Table) : List (Option Value) :=
  (global_dist_df.rows.take 15).map fun r => global_dist_df.cell r "occurcountry"

/-! ## Cache layer

Modelled from the spec: the memoization performed by the
`@st.cache_data(ttl=15 * 60)` decorator and the sidebar refresh control's
`st.cache_data.clear()` (app.py 79-83, 253, 594) are implemented inside the
Streamlit library, which is not part of this repository; the spec describes
them as time-boxed memoization keyed by function identity with a manual
clear of all entries.  The TTL constant is taken from the source decorator. -/

/-- The `ttl=15 * 60` argument of both `@st.cache_data` decorators. -/
def cacheTTL : Nat := 15 * 60

/-- Modelled from the spec: one memoized entry — the time it was stored and
the stored bundle, or nothing. -/
structure Cache (α : Type) where
  entry : Option (Nat × α)
deriving DecidableEq, Repr

/-- Modelled from the spec: a call to a `@st.cache_data(ttl=...)`-decorated
zero-argument function at time `now`.  Returns the value, the new cache
state, and whether the wrapped fetch-or-fallback body was executed. -/
def cachedCall {α : Type} (compute : Unit → α) (now : Nat) (c : Cache α) :
    α × Cache α × Bool :=
  match c.entry with
  | some (t0, v) =>
      if now - t0 < cacheTTL then (v, c, false)
      else (compute (), ⟨some (now, compute ())⟩, true)
  | none => (compute (), ⟨some (now, compute ())⟩, true)

/-- The process-wide cache state: one entry per memoized loader. -/
structure AppCaches where
  fda : Cache FdaBundle
  health : Cache HealthBundle

/-- Modelled from the spec: `st.cache_data.clear()` — clears every
memoized entry of every `st.cache_data` function. -/
def cache_data_clear (_ : AppCaches) : AppCaches := ⟨⟨none⟩, ⟨none⟩⟩

/-! ## Concrete example tables (used by witnesses and counterexamples) -/

/-- Every member table of a Pipeline B bundle exists and has no ASCII
uppercase letter in any column label. -/
def lowerHealthBundle (b : HealthBundle) : Bool :=
  [b.exec_df, b.patient_df, b.encounter_df, b.claims_df, b.financial_df,
   b.geo_df].all fun o =>
    match o with
    | some t => t.cols.all isLowerStr
    | none => false

/-- A fixed random oracle for concrete evaluations. -/
def gZero : Rand := ⟨fun _ _ => 0, fun _ _ => 0, fun _ _ => 0, 0, 2025, 10⟩

/-- A one-row volume table as the real Redshift loader would return it. -/
def tVolumeEx : Table :=
  ⟨["total_reports", "serious_reports", "fatal_reports",
    "countries_affected", "report_month"],
   [[.int 120, .int 30, .int 2, .int 5, .date 7]]⟩

/-- A one-row top-drugs table as the real loader would return it. -/
def tTopDrugsEx : Table :=
  ⟨["medicinalproduct", "generic_name", "report_count", "recovered_count",
    "fatal_count", "avg_age", "male_count", "female_count"],
   [[.str "ASPIRIN", .str "aspirin", .int 90, .int 60, .int 1, .int 55,
     .int 40, .int 50]]⟩

/-- A two-row global-distribution table. -/
def tGlobalEx : Table :=
  ⟨["occurcountry", "report_count", "serious_reports", "fatal_reports",
    "unique_serious_reports"],
   [[.str "US", .int 100, .int 10, .int 1, .int 9],
    [.str "ZZ", .int 50, .int 5, .int 0, .int 4]]⟩

/-- A one-row trends table. -/
def tTrendsEx : Table :=
  ⟨["receivedate", "total_reports", "serious_reports", "fatal_reports",
    "hospitalization_reports"],
   [[.date 3, .int 10, .int 2, .int 1, .int 3]]⟩

/-- A suspect-drugs table whose second row has `report_count = 0`. -/
def tSuspectEx : Table :=
  ⟨["medicinalproduct", "generic_name", "drugcharacterization",
    "report_count", "recovered_count", "fatal_count", "unique_reports"],
   [[.str "ASPIRIN", .str "aspirin", .str "1", .int 80, .int 40, .int 1, .int 70],
    [.str "IBUPROFEN", .str "ibuprofen", .str "1", .int 0, .int 0, .int 0, .int 0]]⟩

/-- A 16-row global-distribution table (the live query is `LIMIT 20`, so up
to 20 rows are possible); the 16th row's code `KR` is present in the lookup
table. -/
def tGlobal16 : Table :=
  ⟨["occurcountry", "report_count", "serious_reports", "fatal_reports",
    "unique_serious_reports"],
   [[.str "US", .int 160, .int 16, .int 1, .int 15],
    [.str "GB", .int 150, .int 15, .int 1, .int 14],
    [.str "CA", .int 140, .int 14, .int 1, .int 13],
    [.str "AU", .int 130, .int 13, .int 1, .int 12],
    [.str "DE", .int 120, .int 12, .int 1, .int 11],
    [.str "FR", .int 110, .int 11, .int 1, .int 10],
    [.str "JP", .int 100, .int 10, .int 1, .int 9],
    [.str "IT", .int 90, .int 9, .int 1, .int 8],
    [.str "ES", .int 80, .int 8, .int 1, .int 7],
    [.str "BR", .int 70, .int 7, .int 1, .int 6],
    [.str "CN", .int 60, .int 6, .int 1, .int 5],
    [.str "IN", .int 50, .int 5, .int 1, .int 4],
    [.str "MX", .int 40, .int 4, .int 1, .int 3],
    [.str "RU", .int 30, .int 3, .int 1, .int 2],
    [.str "ZA", .int 20, .int 2, .int 1, .int 1],
    [.str "KR", .int 10, .int 1, .int 0, .int 1]]⟩

/-- A small global-distribution table with one mapped and one unmapped
code. -/
def tGlobal3 : Table :=
  ⟨["occurcountry", "report_count", "serious_reports", "fatal_reports",
    "unique_serious_reports"],
   [[.str "US", .int 100, .int 10, .int 1, .int 9],
    [.str "ZZ", .int 50, .int 5, .int 0, .int 4],
    [.str "GB", .int 25, .int 2, .int 0, .int 2]]⟩

/-! ## Theorems for the claims -/

/-- C2: each query executor returns `None` exactly when the underlying
connection/query raises an exception, and never raises past its own
boundary (its result type is a plain `Option Table`); a query that succeeds
with zero rows returns the empty frame `pd.DataFrame()` — a success value
distinct from `None`. -/
theorem executor_none_iff_exception :
    (∀ o : QueryOutcome,
      (execute_redshift_query o = none ↔ ∃ e, o = .raises e) ∧
      (execute_snowflake_query o = none ↔ ∃ e, o = .raises e)) ∧
    (∀ cols : List String,
      execute_redshift_query (.result (some ⟨cols, []⟩)) = some emptyTable ∧
      execute_snowflake_query (.result (some ⟨cols, []⟩)) = some emptyTable ∧
      some emptyTable ≠ (none : Option Table)) := by
  constructor
  · intro o
    cases o with
    | raises e => simp [execute_redshift_query, execute_snowflake_query]
    | result df =>
        cases df with
        | none => simp [execute_redshift_query, execute_snowflake_query]
        | some t =>
            constructor <;>
              · simp only [execute_redshift_query, execute_snowflake_query]
                split <;> simp
  · intro cols
    refine ⟨?_, ?_, by simp⟩ <;>
      simp [execute_redshift_query, execute_snowflake_query, Table.isEmptyDf]

/-- C3: when every loader succeeds, Pipeline A's bundle equals the loaders'
outputs unmodified, and Pipeline B's bundle equals the loaders' outputs
with every table's column labels lower-cased; lower-casing never alters
rows or values. -/
theorem success_path_unmodified
    (tV tD tG tT tS e p en c f ge : Table) (g : Rand) :
    load_fda_dashboard_data (some tV) (some tD) (some tG) (some tT) (some tS) g
      = ⟨some tV, some tD, some tG, some tT, some tS⟩ ∧
    load_healthcare_dashboard_data
        (some e) (some p) (some en) (some c) (some f) (some ge) g
      = ⟨some (lowerTable e), some (lowerTable p), some (lowerTable en),
         some (lowerTable c), some (lowerTable f), some (lowerTable ge)⟩ ∧
    (∀ t : Table, (lowerTable t).rows = t.rows) :=
  ⟨rfl, rfl, fun _ => rfl⟩

/-- C6: the bundle loaders are memoized with a 15-minute TTL — a second
call within the TTL window returns the identical cached bundle without
executing the fetch-or-fallback body, and the manual refresh control
(`st.cache_data.clear()`) clears all memoized entries, after which the next
call re-executes the body. -/
theorem cache_ttl_idempotence {α : Type} (compute : Unit → α) (t0 t1 : Nat)
    (h : t1 - t0 < cacheTTL) :
    (cachedCall compute t0 (⟨none⟩ : Cache α)).2.2 = true ∧
    (cachedCall compute t1 (cachedCall compute t0 (⟨none⟩ : Cache α)).2.1).1
      = (cachedCall compute t0 (⟨none⟩ : Cache α)).1 ∧
    (cachedCall compute t1 (cachedCall compute t0 (⟨none⟩ : Cache α)).2.1).2.2
      = false ∧
    (∀ cs : AppCaches, (cache_data_clear cs).fda.entry = none ∧
                       (cache_data_clear cs).health.entry = none) ∧
    (∀ t2 : Nat, (cachedCall compute t2 (⟨none⟩ : Cache α)).2.2 = true) := by
  refine ⟨rfl, ?_, ?_, fun cs => ⟨rfl, rfl⟩, fun t2 => rfl⟩ <;>
    simp [cachedCall, h]

/-- Witness for C6 at `compute = const 42`, `t0 = 0`, `t1 = 100` (within
the 900-second TTL). -/
theorem cache_ttl_idempotence_witness :
    (cachedCall (fun _ => (42 : Nat)) 0 (⟨none⟩ : Cache Nat)).2.2 = true ∧
    (cachedCall (fun _ => (42 : Nat)) 100
        (cachedCall (fun _ => (42 : Nat)) 0 (⟨none⟩ : Cache Nat)).2.1).1
      = (cachedCall (fun _ => (42 : Nat)) 0 (⟨none⟩ : Cache Nat)).1 ∧
    (cachedCall (fun _ => (42 : Nat)) 100
        (cachedCall (fun _ => (42 : Nat)) 0 (⟨none⟩ : Cache Nat)).2.1).2.2
      = false ∧
    (∀ cs : AppCaches, (cache_data_clear cs).fda.entry = none ∧
                       (cache_data_clear cs).health.entry = none) ∧
    (∀ t2 : Nat, (cachedCall (fun _ => (42 : Nat)) t2 (⟨none⟩ : Cache Nat)).2.2
      = true) :=
  cache_ttl_idempotence (fun _ => (42 : Nat)) 0 100 (by decide)

/-- C1 (evaluation at the failing input): with the volume, top-drugs,
global-distribution and suspect-drugs loaders succeeding but the trends
loader returning `None`, `load_fda_dashboard_data` takes its success branch
— the guard checks only `volume_df` and `top_drugs_df` — and returns a
bundle mixing real loader outputs with a `None` member, not the fully
synthetic bundle the all-or-nothing policy requires. -/
theorem mixed_bundle_on_partial_failure :
    load_fda_dashboard_data (some tVolumeEx) (some tTopDrugsEx)
        (some tGlobalEx) none (some tSuspectEx) gZero
      = ⟨some tVolumeEx, some tTopDrugsEx, some tGlobalEx, none,
         some tSuspectEx⟩ ∧
    (load_fda_dashboard_data (some tVolumeEx) (some tTopDrugsEx)
        (some tGlobalEx) none (some tSuspectEx) gZero).trends_df = none ∧
    tVolumeEx ≠ mock_volume_df gZero :=
  ⟨rfl, rfl, by decide⟩

/-- C4: every synthetic table has exactly its declared fixed column set and
fixed row count for every random oracle, i.e. regardless of the values
drawn; in particular the Pipeline A synthetic volume table has exactly 12
rows and exactly the columns `total_reports`, `serious_reports`,
`fatal_reports`, `countries_affected`, `report_month`. -/
theorem synthetic_tables_shape (g : Rand) :
    ((mock_volume_df g).cols = ["total_reports", "serious_reports",
        "fatal_reports", "countries_affected", "report_month"] ∧
      (mock_volume_df g).rows.length = 12) ∧
    ((mock_top_drugs_df g).cols = ["medicinalproduct", "generic_name",
        "report_count", "recovered_count", "fatal_count", "avg_age",
        "male_count", "female_count"] ∧
      (mock_top_drugs_df g).rows.length = 10) ∧
    ((mock_global_dist_df g).cols = ["occurcountry", "report_count",
        "serious_reports", "fatal_reports", "unique_serious_reports"] ∧
      (mock_global_dist_df g).rows.length = 10) ∧
    ((mock_trends_df g).cols = ["receivedate", "total_reports",
        "serious_reports", "fatal_reports", "hospitalization_reports"] ∧
      (mock_trends_df g).rows.length = 26) ∧
    ((mock_suspect_drugs_df g).cols = ["medicinalproduct", "generic_name",
        "drugcharacterization", "report_count", "recovered_count",
        "fatal_count", "unique_reports"] ∧
      (mock_suspect_drugs_df g).rows.length = 8) ∧
    ((mock_exec_df g).cols = ["month_date", "year", "month",
        "encounter_count", "unique_patients", "total_revenue",
        "avg_cost_per_encounter", "total_payer_coverage",
        "total_patient_payment", "avg_coverage_percentage",
        "encounter_class", "cost_category", "encounter_day_name", "state"] ∧
      (mock_exec_df g).rows.length = 24) ∧
    ((mock_patient_df g).cols = ["patient_id", "full_name", "age",
        "age_group", "gender", "gender_full", "race", "ethnicity",
        "marital_status", "state", "county", "city", "zip", "income",
        "income_level", "healthcare_expenses", "healthcare_coverage",
        "coverage_tier", "is_alive", "total_encounters",
        "total_medical_costs", "avg_cost_per_encounter",
        "total_out_of_pocket"] ∧
      (mock_patient_df g).rows.length = 1000) ∧
    ((mock_encounter_df g).cols = ["encounter_id", "encounter_date",
        "encounter_year", "encounter_month", "encounter_quarter",
        "encounter_day_of_week", "encounter_day_name", "encounter_class",
        "encounter_code", "encounter_description", "reason_code",
        "reason_description", "cost_category", "duration_minutes",
        "duration_hours", "base_encounter_cost", "total_claim_cost",
        "payer_coverage", "patient_out_of_pocket",
        "payer_coverage_percentage", "patient_id", "provider_id",
        "payer_id", "organization_id", "age", "age_group", "gender_full",
        "state", "income_level", "coverage_tier"] ∧
      (mock_encounter_df g).rows.length = 5000) ∧
    ((mock_claims_df g).cols = ["claim_id", "patient_id", "provider_id",
        "service_date", "service_year", "service_month", "service_quarter",
        "current_illness_date", "primary_insurance_id",
        "secondary_insurance_id", "insurance_coverage_type",
        "primary_status", "secondary_status", "patient_status",
        "primary_outstanding", "secondary_outstanding",
        "patient_outstanding", "total_outstanding",
        "outstanding_risk_level", "primary_last_billed_date",
        "secondary_last_billed_date", "patient_last_billed_date",
        "primary_claim_type", "secondary_claim_type", "age", "age_group",
        "gender_full", "state", "income_level", "coverage_tier",
        "diagnosis1", "diagnosis2", "diagnosis3", "diagnosis4",
        "diagnosis5", "diagnosis6", "diagnosis7", "diagnosis8",
        "diagnosis_count"] ∧
      (mock_claims_df g).rows.length = 2000) ∧
    ((mock_financial_df g).cols = ["encounter_date", "encounter_year",
        "encounter_month", "encounter_quarter", "encounter_class",
        "cost_category", "patient_id", "provider_id", "payer_id",
        "base_encounter_cost", "total_claim_cost", "payer_coverage",
        "patient_out_of_pocket", "payer_coverage_percentage", "state",
        "county", "age_group", "gender_full", "income_level", "income",
        "healthcare_expenses", "healthcare_coverage",
        "total_claim_outstanding", "total_claims", "monthly_total_revenue",
        "monthly_payer_coverage", "monthly_patient_payment",
        "state_total_revenue", "state_payer_coverage",
        "state_patient_payment", "class_total_revenue",
        "payer_total_revenue", "avg_coverage_by_payer",
        "avg_coverage_by_income", "avg_coverage_by_age",
        "avg_cost_by_class", "avg_cost_by_provider",
        "patient_burden_percentage", "financial_burden_category"] ∧
      (mock_financial_df g).rows.length = 1000) ∧
    ((mock_geo_df g).cols = ["state", "county", "city", "patient_count",
        "avg_age", "avg_income", "avg_coverage_rate", "total_expenses",
        "avg_expenses_per_patient", "encounter_count",
        "total_medical_costs", "avg_cost_per_encounter",
        "total_insurance_paid", "total_patient_paid",
        "avg_coverage_percentage", "unique_encounter_patients",
        "claim_count", "total_outstanding", "avg_outstanding_per_claim",
        "unique_claim_patients", "encounters_per_patient",
        "medical_cost_per_patient", "outstanding_per_patient",
        "outstanding_percentage", "geographic_risk_level"] ∧
      (mock_geo_df g).rows.length = 125) := by
  refine ⟨⟨rfl, ?_⟩, ⟨rfl, ?_⟩, ⟨rfl, ?_⟩, ⟨rfl, ?_⟩, ⟨rfl, ?_⟩, ⟨rfl, ?_⟩,
          ⟨rfl, ?_⟩, ⟨rfl, ?_⟩, ⟨rfl, ?_⟩, ⟨rfl, ?_⟩, ⟨rfl, ?_⟩⟩ <;>
    simp [mock_volume_df, mock_top_drugs_df, mock_global_dist_df,
          mock_trends_df, mock_suspect_drugs_df, mock_exec_df,
          mock_patient_df, mock_encounter_df, mock_claims_df,
          mock_financial_df, mock_geo_df, List.length_map, List.enum_length,
          List.length_range, mockDrugs, mockCountries, mockGeoTriples,
          mockStates, mockCountyNames, mockCityNames]

/-- C9: every bundle returned by the Pipeline B loader has all-lowercase
column labels in every member table, on both paths — the real path
lower-cases each of the six tables' columns explicitly, and the synthetic
path constructs every table with lowercase column labels to begin with. -/
theorem health_bundle_lower (exec_df patient_df encounter_df claims_df
    financial_df geo_df : Option Table) (g : Rand) :
    lowerHealthBundle (load_healthcare_dashboard_data exec_df patient_df
      encounter_df claims_df financial_df geo_df g) = true := by
  have hmock : lowerHealthBundle
      ⟨some (mock_exec_df g), some (mock_patient_df g),
       some (mock_encounter_df g), some (mock_claims_df g),
       some (mock_financial_df g), some (mock_geo_df g)⟩ = true := rfl
  have hreal : ∀ e p en c f ge : Table, lowerHealthBundle
      ⟨some (lowerTable e), some (lowerTable p), some (lowerTable en),
       some (lowerTable c), some (lowerTable f), some (lowerTable ge)⟩
        = true := by
    intro e p en c f ge
    simp [lowerHealthBundle, lowerTable_all_lower]
  cases exec_df <;> cases patient_df <;> cases encounter_df <;>
    cases claims_df <;> cases financial_df <;> cases geo_df <;>
    first
      | exact hmock
      | exact hreal _ _ _ _ _ _

/-- C10: the Pipeline A synthetic trends table is built from exactly 26
weekly rows for every random oracle, so it is never empty and the
pie-chart section always takes its chart branch — built from the last
(26th) row's four report counts — never the warning branch. -/
theorem synthetic_trends_always_renders (g : Rand) :
    (mock_trends_df g).rows.length = 26 ∧
    (mock_trends_df g).rows ≠ [] ∧
    renderPieSection (mock_trends_df g) = .ok (.chart
      [("Total Reports", randintV g 25 "total_reports" 200 1000),
       ("Serious Reports", randintV g 25 "serious_reports" 20 100),
       ("Fatal Reports", randintV g 25 "fatal_reports" 0 10),
       ("Hospitalization Reports",
        randintV g 25 "hospitalization_reports" 10 80)]) := by
  have hlen : (mock_trends_df g).rows.length = 26 := by
    simp [mock_trends_df, List.length_map, List.length_range]
  refine ⟨hlen, ?_, ?_⟩
  · intro h
    rw [h] at hlen
    simp at hlen
  · rfl

/-- C7: for every trends table with zero rows the pie-chart section renders
the warning message without accessing the last row (no `IndexError` — the
section completes with `.ok`); for every non-empty trends table the pie
chart is built from exactly the last row's four report counts. -/
theorem pie_section_guarded :
    (∀ t : Table, t.rows = [] →
      renderPieSection t
        = .ok (.warning "No trend data available for visualization")) ∧
    (∀ (t : Table) (lastRow : List Value) (vt vs vf vh : Value),
      t.rows.getLast? = some lastRow →
      t.cell lastRow "total_reports" = some vt →
      t.cell lastRow "serious_reports" = some vs →
      t.cell lastRow "fatal_reports" = some vf →
      t.cell lastRow "hospitalization_reports" = some vh →
      renderPieSection t = .ok (.chart
        [("Total Reports", vt), ("Serious Reports", vs),
         ("Fatal Reports", vf), ("Hospitalization Reports", vh)])) := by
  constructor
  · intro t ht
    have hempty : t.isEmptyDf = true := by
      simp [Table.isEmptyDf, ht]
    unfold renderPieSection
    rw [hempty]
    rfl
  · intro t lastRow vt vs vf vh hlast h1 h2 h3 h4
    have hrows : t.rows ≠ [] := by
      intro h
      rw [h] at hlast
      simp at hlast
    have hcols : t.cols ≠ [] := by
      intro h
      rw [Table.cell, Table.colIdx, h] at h1
      simp at h1
    have hempty : t.isEmptyDf = false := by
      simp [Table.isEmptyDf, List.isEmpty_iff, hrows, hcols]
    unfold renderPieSection
    rw [hempty]
    simp [ilocLast, hlast, Table.cellE, h1, h2, h3, h4, Bind.bind,
          Except.bind, Functor.map, Except.map, Pure.pure, Except.pure]

/-- Witness for C7: the empty-table branch at a zero-row trends table, and
the chart branch at the one-row table `tTrendsEx`. -/
theorem pie_section_guarded_witness :
    renderPieSection ⟨["receivedate", "total_reports", "serious_reports",
        "fatal_reports", "hospitalization_reports"], []⟩
      = .ok (.warning "No trend data available for visualization") ∧
    renderPieSection tTrendsEx = .ok (.chart
      [("Total Reports", .int 10), ("Serious Reports", .int 2),
       ("Fatal Reports", .int 1), ("Hospitalization Reports", .int 3)]) :=
  ⟨pie_section_guarded.1 _ rfl,
   pie_section_guarded.2 tTrendsEx [.date 3, .int 10, .int 2, .int 1, .int 3]
     (.int 10) (.int 2) (.int 1) (.int 3) (by decide) (by decide) (by decide)
     (by decide) (by decide)⟩

/-- An integer column yields an `.ok` integer for every row. -/
theorem intCellE_ok_of_intCol {t : Table} {c : String} (h : t.intCol c = true)
    {r : List Value} (hr : r ∈ t.rows) : ∃ n : Int, t.intCellE r c = .ok n := by
  have hm := List.all_eq_true.mp h r hr
  unfold Table.intCellE
  cases hcell : t.cell r c with
  | none =>
      rw [hcell] at hm
      simp at hm
  | some v =>
      rw [hcell] at hm
      cases v
      case int n => exact ⟨n, rfl⟩
      all_goals simp at hm

/-- Appending the recovery-rate column succeeds on every row list whose
`recovered_count` and `report_count` cells are integers. -/
theorem addRecoveryRows_ok (t : Table) (rows : List (List Value))
    (hrec : ∀ r ∈ rows, ∃ n : Int, t.intCellE r "recovered_count" = .ok n)
    (hrep : ∀ r ∈ rows, ∃ n : Int, t.intCellE r "report_count" = .ok n) :
    ∃ rs, addRecoveryRows t rows = .ok rs := by
  induction rows with
  | nil => exact ⟨[], rfl⟩
  | cons r rs ih =>
      obtain ⟨n1, e1⟩ := hrec r (List.mem_cons_self r rs)
      obtain ⟨n2, e2⟩ := hrep r (List.mem_cons_self r rs)
      obtain ⟨rs', e3⟩ := ih
        (fun x hx => hrec x (List.mem_cons_of_mem r hx))
        (fun x hx => hrep x (List.mem_cons_of_mem r hx))
      refine ⟨(r ++ [recoveryRateCell n1 n2]) :: rs', ?_⟩
      simp [addRecoveryRows, e1, e2, e3, Bind.bind, Except.bind, Pure.pure,
            Except.pure]

/-- C5: the suspect-drugs recovery-rate section completes for every
well-typed suspect-drugs table — pandas division by a zero `report_count`
yields `NaN`/`inf`, not an exception, so no zero-guard is needed for the
section to finish rendering. -/
theorem recovery_section_total (t : Table)
    (hm : "medicinalproduct" ∈ t.cols)
    (hrec : t.intCol "recovered_count" = true)
    (hrep : t.intCol "report_count" = true) :
    ∃ out, renderRecoverySection t = .ok out := by
  have hcell : ∀ c r, (t.head 10).cell r c = t.cell r c := fun _ _ => rfl
  have hIntHead : ∀ c : String, t.intCol c = true →
      ∀ r ∈ (t.head 10).rows, ∃ n : Int, (t.head 10).intCellE r c = .ok n := by
    intro c hc r hr
    exact intCellE_ok_of_intCol
      (t := t.head 10) (c := c)
      (by
        apply List.all_eq_true.mpr
        intro x hx
        exact List.all_eq_true.mp hc x (List.mem_of_mem_take hx)) hr
  obtain ⟨rs, hrs⟩ := addRecoveryRows_ok (t.head 10) (t.head 10).rows
    (hIntHead "recovered_count" hrec) (hIntHead "report_count" hrep)
  have hsome : (Table.colIdx ⟨t.cols ++ ["recovery_rate"], rs⟩
      "medicinalproduct").isSome = true := by
    rw [Table.colIdx, List.findIdx?_isSome]
    exact List.any_eq_true.mpr
      ⟨"medicinalproduct", List.mem_append_left _ hm, by simp⟩
  obtain ⟨i, hi⟩ := Option.isSome_iff_exists.mp hsome
  have hhead : (t.head 10).cols = t.cols := rfl
  refine ⟨⟨t.cols ++ ["recovery_rate"], rs⟩, ?_⟩
  unfold renderRecoverySection
  simp [hrs, Bind.bind, Except.bind, Pure.pure, Except.pure, hhead, hi]

/-- Witness for C5 at `tSuspectEx`, whose second row has
`report_count = 0`. -/
theorem recovery_section_total_witness :
    "medicinalproduct" ∈ tSuspectEx.cols ∧
    tSuspectEx.intCol "recovered_count" = true ∧
    tSuspectEx.intCol "report_count" = true ∧
    ∃ out, renderRecoverySection tSuspectEx = .ok out :=
  ⟨by decide, by decide, by decide,
   recovery_section_total tSuspectEx (by decide) (by decide) (by decide)⟩

/-- C8 (counterexample): the tabular heatmap view shows only
`global_dist_df.head(15)`, so for the 16-row table `tGlobal16` the 16th
code `KR` — although present in the lookup table — is not retained in the
heatmap view, refuting "all codes — present or absent — are retained in
the tabular heatmap view". -/
theorem heatmap_retention_counterexample :
    ("KR", "KOR") ∈ code_mapping ∧
    (∃ r ∈ tGlobal16.rows,
      tGlobal16.cell r "occurcountry" = some (.str "KR")) ∧
    some (Value.str "KR") ∉ heatmap_codes tGlobal16 := by decide

/-- The 2-letter keys of the static lookup table are pairwise distinct. -/
theorem code_mapping_keys_nodup : (code_mapping.map Prod.fst).Nodup := by
  decide

/-- `find?` on an association list with distinct keys returns the unique
entry of a present key. -/
theorem find_key_eq_of_mem {l : List (String × String)}
    (hnd : (l.map Prod.fst).Nodup) {c m : String} (h : (c, m) ∈ l) :
    l.find? (fun p => p.1 = c) = some (c, m) := by
  induction l with
  | nil => cases h
  | cons p tl ih =>
      rw [List.map_cons, List.nodup_cons] at hnd
      rcases List.mem_cons.mp h with h | h
      · rw [← h, List.find?_cons_of_pos _ (by simp)]
      · have hpc : ¬ (p.1 = c) := by
          intro hpc
          apply hnd.1
          rw [hpc]
          exact List.mem_map_of_mem Prod.fst h
        rw [List.find?_cons_of_neg _ (by simp [hpc])]
        exact ih hnd.2 h

/-- `Series.map(code_mapping)` sends a present 2-letter code to its
3-letter code. -/
theorem mapLookup_eq_of_mem {c m : String} (h : (c, m) ∈ code_mapping) :
    mapLookup code_mapping c = .str m := by
  unfold mapLookup
  rw [find_key_eq_of_mem code_mapping_keys_nodup h]

/-- `Series.map(dict)` sends an absent key to `NaN`. -/
theorem mapLookup_eq_nan {l : List (String × String)} {c : String}
    (h : c ∉ l.map Prod.fst) : mapLookup l c = .nan := by
  have hnone : l.find? (fun p => p.1 = c) = none := by
    apply List.find?_eq_none.mpr
    intro p hp hdec
    apply h
    have hpc : p.1 = c := of_decide_eq_true hdec
    rw [← hpc]
    exact List.mem_map_of_mem Prod.fst hp
  unfold mapLookup
  rw [hnone]

/-- Index of a fresh label appended to a column list. -/
theorem findIdx_append_self (l : List String) (c : String) (h : c ∉ l)
    (i : Nat) :
    List.findIdx? (fun x => x = c) (l ++ [c]) i = some (i + l.length) := by
  induction l generalizing i with
  | nil => simp [List.findIdx?_cons]
  | cons a tl ih =>
      have hac : ¬ (a = c) := fun hc => h (hc ▸ List.mem_cons_self a tl)
      rw [List.cons_append, List.findIdx?_cons, if_neg (by simp [hac])]
      rw [ih (fun hm => h (List.mem_cons_of_mem a hm)) (i + 1)]
      congr 1
      rw [List.length_cons]
      omega

/-- The `iso_alpha` cell of an extended row of `map_df`. -/
theorem map_df_cell_iso (tg : Table) (hiso : "iso_alpha" ∉ tg.cols)
    {r : List Value} (hr : r.length = tg.cols.length) (v : Value) :
    (map_df tg).cell (r ++ [v]) "iso_alpha" = some v := by
  unfold map_df Table.cell Table.colIdx
  simp only []
  rw [findIdx_append_self tg.cols "iso_alpha" hiso 0]
  simp only [Option.bind_some, Nat.zero_add]
  rw [← hr]
  exact List.get?_concat_length r v

/-- C8 (amended): every code present in the static lookup table is mapped
to its 3-letter code and its row appears in the choropleth dataset; every
absent code maps to `NaN` and its row is excluded from the choropleth; but
only the codes of the table's **first 15 rows** (`head(15)`) are retained
in the tabular heatmap view, not all codes. -/
theorem country_code_mapping (tg : Table) (hwf : tg.wf)
    (hiso : "iso_alpha" ∉ tg.cols) :
    (∀ r ∈ tg.rows, ∀ c m : String,
      tg.cell r "occurcountry" = some (.str c) → (c, m) ∈ code_mapping →
        isoAlphaOf tg r = .str m ∧
        (r ++ [Value.str m]) ∈ (choropleth_df tg).rows) ∧
    (∀ r ∈ tg.rows, ∀ c : String,
      tg.cell r "occurcountry" = some (.str c) →
      c ∉ code_mapping.map Prod.fst →
        isoAlphaOf tg r = .nan ∧
        (r ++ [Value.nan]) ∉ (choropleth_df tg).rows) ∧
    (∀ r ∈ tg.rows.take 15,
      tg.cell r "occurcountry" ∈ heatmap_codes tg) := by
  refine ⟨?_, ?_, ?_⟩
  · intro r hr c m hc hm
    have hiso1 : isoAlphaOf tg r = .str m := by
      unfold isoAlphaOf
      rw [hc]
      exact mapLookup_eq_of_mem hm
    refine ⟨hiso1, ?_⟩
    unfold choropleth_df
    simp only []
    apply List.mem_filter.mpr
    constructor
    · have him : r ++ [Value.str m] = r ++ [isoAlphaOf tg r] := by
        rw [hiso1]
      rw [him]
      unfold map_df
      exact List.mem_map_of_mem _ hr
    · have hcell := map_df_cell_iso tg hiso (hwf r hr) (Value.str m)
      simp [hcell]
  · intro r hr c hc hnm
    have hiso1 : isoAlphaOf tg r = .nan := by
      unfold isoAlphaOf
      rw [hc]
      exact mapLookup_eq_nan hnm
    refine ⟨hiso1, ?_⟩
    intro hmem
    unfold choropleth_df at hmem
    simp only [] at hmem
    have hpred := (List.mem_filter.mp hmem).2
    have hcell := map_df_cell_iso tg hiso (hwf r hr) Value.nan
    simp [hcell] at hpred
  · intro r hr
    exact List.mem_map_of_mem _ hr

/-- Witness for C8 (amended) at `tGlobal3`: the mapped code `US` yields a
choropleth row carrying `USA`, and the unmapped code `ZZ` is excluded. -/
theorem country_code_mapping_witness :
    tGlobal3.wf ∧ "iso_alpha" ∉ tGlobal3.cols ∧
    ([.str "US", .int 100, .int 10, .int 1, .int 9] ++ [Value.str "USA"])
      ∈ (choropleth_df tGlobal3).rows ∧
    ([.str "ZZ", .int 50, .int 5, .int 0, .int 4] ++ [Value.nan])
      ∉ (choropleth_df tGlobal3).rows :=
  have hwf : tGlobal3.wf := by
    unfold Table.wf
    decide
  have hiso : "iso_alpha" ∉ tGlobal3.cols := by decide
  ⟨hwf, hiso,
   ((country_code_mapping tGlobal3 hwf hiso).1
      [.str "US", .int 100, .int 10, .int 1, .int 9] (by decide) "US" "USA"
      (by decide) (by decide)).2,
   ((country_code_mapping tGlobal3 hwf hiso).2.1
      [.str "ZZ", .int 50, .int 5, .int 0, .int 4] (by decide) "ZZ"
      (by decide) (by decide)).2⟩

end StreamlitRepo
